import Mathlib

/-!
Verification development for the Kokoro TTS API server
(`api-server/tts_service.py`, `api-server/models.py`, `api-server/main.py`).

The service is embedded shallowly:

* Python strings are lists of code points (`List Char`).
* Python floats that only flow through arithmetic comparisons (the `speed`
  argument, the mock-audio duration) are rationals; the sample values of the
  synthetic waveform, which involve `sin` and `exp`, are real numbers.
* The mutable fields of the `TTSService` instance form `ServiceState`.
* External calls (torch, the kokoro pipeline and model, `soundfile.write`,
  `time.sleep`) are oracles: an `Env` record fixes their behaviour for a run,
  and every externally observable call is recorded as an `Event`.
* A Python function that may raise returns `Except`; `Except.error` is a
  propagating exception, and a `try/except` block is a `match` on it.
-/

namespace KokoroTTS

/-- The whitespace set stripped by Python `str.strip()` (ASCII part). -/
def isSpace (c : Char) : Bool :=
  c == ' ' || c == '\t' || c == '\n' || c == '\r' || c == '\x0b' || c == '\x0c'

/-- Python `s.strip()` on a code-point list: drop leading and trailing whitespace. -/
def pyStrip (s : List Char) : List Char :=
  ((s.dropWhile isSpace).reverse.dropWhile isSpace).reverse

/-- Line 172 of tts_service.py: `text = text.strip()[:5000]`. -/
def normalizeText (s : List Char) : List Char := (pyStrip s).take 5000

/-- The values of `TTSService.CHOICES` (tts_service.py lines 24-53), in
insertion order; the keys (emoji display names) never reach the generation
path and are omitted. -/
def voiceIds : List (List Char) :=
  ["af_heart", "af_bella", "af_nicole", "af_aoede", "af_kore", "af_sarah", "af_nova",
   "af_sky", "af_alloy", "af_jessica", "af_river", "am_michael", "am_fenrir", "am_puck",
   "am_echo", "am_eric", "am_liam", "am_onyx", "am_santa", "am_adam", "bf_emma",
   "bf_isabella", "bf_alice", "bf_lily", "bm_george", "bm_fable", "bm_lewis",
   "bm_daniel"].map String.data

/-- The hardcoded default voice (line 169). -/
def defaultVoice : List Char := "af_heart".data

/-- Lines 167-169: `if voice not in [v for v in self.CHOICES.values()]: voice = "af_heart"`. -/
def validatedVoice (voice : List Char) : List Char :=
  if voiceIds.contains voice then voice else defaultVoice

/-- The mutable fields of the `TTSService` instance.  `inited` is the Python
attribute `self.initialized`; `modelsLoaded` means the dict `self.models` has
its `False` (CPU) key; `pipelinesLoaded` means `self.pipelines` has its
`'a'` and `'b'` keys; `cudaAvailable` is `self.cuda_available`, which does not
exist (`none`) until the background worker sets it. -/
structure ServiceState where
  inited : Bool
  initializationInProgress : Bool
  initializationError : Option (List Char)
  voicesLoaded : List (List Char)
  modelsLoaded : Bool
  pipelinesLoaded : Bool
  cudaAvailable : Option Bool
  deriving DecidableEq

/-- Oracle for the external collaborators during one `generate_speech` call.
`initAfterSleeps = some k` means the background initialization thread finishes
(successfully) once `k` one-second sleeps of the readiness wait have elapsed;
`none` means it does not finish during this call.  The `..Ok` flags say whether
the corresponding external call raises; `segs` is the list of token counts
(`len(ps)`) of the chunks yielded by `pipeline(text, voice, speed)`; `packLen`
is `len(pack)` for the loaded voice pack. -/
structure Env where
  initAfterSleeps : Option Nat
  loadVoiceOk : Bool
  loadErr : List Char
  pipelineOk : Bool
  pipelineErr : List Char
  segs : List Nat
  packLen : Nat
  modelOk : Bool
  modelErr : List Char
  writeOk : Bool
  writeErr : List Char
  tmpName : List Char
  mockWriteOk : Bool
  mockTmpName : List Char
  deriving DecidableEq

/-- Externally observable calls made during a run: the one-second sleeps of
the readiness wait, `pipeline.load_voice`, the segmentation call
`pipeline(text, voice, speed)`, a `KModel` inference call through
`self.models[False]` (CPU) or `self.models[True]` (GPU), and an artifact
write via `soundfile.write`. -/
inductive Event where
  | sleep : Event
  | loadVoice : List Char → Event
  | pipelineCall : List Char → List Char → ℚ → Event
  | inferCpu : Nat → ℚ → Event
  | inferGpu : Nat → ℚ → Event
  | writeArtifact : List Char → Event
  deriving DecidableEq

/-- One run's observable outcome: the final service state, the emitted events
and the value handed to the caller (`Except.error` is a propagating Python
exception). -/
structure RunOut where
  state : ServiceState
  events : List Event
  result : Except (List Char) (List Char × List Char)

/-- Line 165: `f"Mock audio for: {text[:50]}..."`. -/
def mockNotReadyTrace (text : List Char) : List Char :=
  "Mock audio for: ".data ++ text.take 50 ++ "...".data

/-- Line 178: `f"Generation failed: {str(e)}"`. -/
def genFailedTrace (e : List Char) : List Char :=
  "Generation failed: ".data ++ e

/-- Line 213: `f"No audio generated for: {text[:50]}..."`. -/
def noAudioTrace (text : List Char) : List Char :=
  "No audio generated for: ".data ++ text.take 50 ++ "...".data

/-- Line 208: `f"Generated {num_tokens} tokens for text: {text[:100]}..."`. -/
def tokensTrace (k : Nat) (text : List Char) : List Char :=
  "Generated ".data ++ (toString k).data ++ " tokens for text: ".data ++
    text.take 100 ++ "...".data

/-- `TTSService._generate_mock_audio` (lines 215-231), result path only: the
whole body sits in a `try`, and on any failure (modelled by
`mockWriteOk = false`) the function returns the fixed dummy path instead of
raising.  The waveform written in the success case is described separately by
`mockDuration`, `mockNumSamples` and `mockSample`. -/
def generateMockAudio (env : Env) (text : List Char) : List Char :=
  if env.mockWriteOk then env.mockTmpName else "/tmp/mock_audio.wav".data

/-- Line 220: `duration = min(len(text) * 0.05, 10)` (seconds, as a rational). -/
def mockDuration (text : List Char) : ℚ :=
  min ((text.length : ℚ) * (1 / 20)) 10

/-- Line 221: `int(sample_rate * duration)` with `sample_rate = 24000`
(`int()` truncates, and the value is nonnegative, so this is the floor). -/
def mockNumSamples (text : List Char) : ℕ :=
  (Int.floor ((24000 : ℚ) * mockDuration text)).toNat

/-- `np.linspace(0, duration, n)` sample instants: `t i = duration * i / (n - 1)`
(for `n = 1` the division by zero yields `t 0 = 0`, matching numpy's `[0.]`). -/
noncomputable def mockTime (text : List Char) (i : ℕ) : ℝ :=
  (mockDuration text : ℝ) * i / ((mockNumSamples text - 1 : ℕ) : ℝ)

/-- Line 222: `audio = 0.3 * np.sin(2 * np.pi * 440 * t)` — a constant-amplitude
440 Hz tone. -/
noncomputable def mockSample (text : List Char) (i : ℕ) : ℝ :=
  0.3 * Real.sin (2 * Real.pi * 440 * mockTime text i)

/-- Modelled from the spec: §4.4 asserts the fallback waveform carries a
"simple amplitude envelope (exponential decay)".  This is the spec's enveloped
form of the tone with decay rate `c`, to be compared with the source's
`mockSample`. -/
noncomputable def specEnvelopedSample (c : ℝ) (text : List Char) (i : ℕ) : ℝ :=
  Real.exp (-(c * mockTime text i)) * mockSample text i

/-- Whether `self.initialized` reads `true` after `done` sleeps, given the
worker finishes after `initAfterSleeps` sleeps. -/
def pollInited (initAfter : Option Nat) (done : Nat) : Bool :=
  match initAfter with
  | some k => decide (k ≤ done)
  | none => false

/-- Lines 158-161: `for _ in range(10): if self.initialized: break; time.sleep(1)`.
`n` is the remaining loop iterations, `done` the sleeps performed so far;
the result is the total number of sleeps. -/
def waitSleepsAux (initAfter : Option Nat) : Nat → Nat → Nat
  | 0, done => done
  | n + 1, done =>
      if pollInited initAfter done then done else waitSleepsAux initAfter n (done + 1)

/-- Total sleeps performed by the bounded readiness wait. -/
def waitSleeps (initAfter : Option Nat) : Nat := waitSleepsAux initAfter 10 0

/-- The state observed once the background worker has set `initialized`: the
worker loads the CPU model and both pipelines before setting the flag
(lines 81-97), and its `finally` clears `initialization_in_progress`. -/
def readyAfterInit (s : ServiceState) : ServiceState :=
  { s with inited := true, initializationInProgress := false,
           modelsLoaded := true, pipelinesLoaded := true }

/-- Python `pack[len(ps) - 1]` (line 193) is in bounds: for `len(ps) = 0` the
index is `-1`, Python's last element, valid iff the pack is nonempty. -/
def refIndexOk (k packLen : Nat) : Bool :=
  if k = 0 then decide (0 < packLen) else decide (k - 1 < packLen)

/-- The tail of `_do_generation` from line 190 on: the unconditional pack
fetch `pack = pipeline.load_voice(voice)`, the segmentation call, and the
single-chunk synthesis (only the first yielded chunk is materialized).
`evs` are the events already emitted by the `voices_loaded` guard.  Events
are recorded at the moment the external call is attempted, whether or not
it raises. -/
def doGenAfterLoad (env : Env) (s : ServiceState) (text voice : List Char)
    (speed : ℚ) (evs : List Event) : RunOut :=
  if env.loadVoiceOk then
    if env.pipelineOk then
      match env.segs with
      | [] =>
          ⟨s, evs ++ [Event.loadVoice voice, Event.pipelineCall text voice speed],
           Except.ok (generateMockAudio env text, noAudioTrace text)⟩
      | k :: _ =>
          if refIndexOk k env.packLen then
            if s.modelsLoaded then
              if env.modelOk then
                if env.writeOk then
                  ⟨s, evs ++ [Event.loadVoice voice, Event.pipelineCall text voice speed,
                        Event.inferCpu k speed, Event.writeArtifact env.tmpName],
                   Except.ok (env.tmpName, tokensTrace k text)⟩
                else
                  ⟨s, evs ++ [Event.loadVoice voice, Event.pipelineCall text voice speed,
                        Event.inferCpu k speed, Event.writeArtifact env.tmpName],
                   Except.error env.writeErr⟩
              else
                ⟨s, evs ++ [Event.loadVoice voice, Event.pipelineCall text voice speed,
                      Event.inferCpu k speed],
                 Except.error env.modelErr⟩
            else
              ⟨s, evs ++ [Event.loadVoice voice, Event.pipelineCall text voice speed],
               Except.error "KeyError".data⟩
          else
            ⟨s, evs ++ [Event.loadVoice voice, Event.pipelineCall text voice speed],
             Except.error "IndexError".data⟩
    else
      ⟨s, evs ++ [Event.loadVoice voice, Event.pipelineCall text voice speed],
       Except.error env.pipelineErr⟩
  else ⟨s, evs ++ [Event.loadVoice voice], Except.error env.loadErr⟩

/-- `TTSService._do_generation` (lines 180-213).  `self.pipelines[voice[0]]`
raises `IndexError` on an empty voice id and `KeyError` when the pipelines
dict lacks the key; the `voices_loaded` guard (lines 185-188) performs a
warm-up `load_voice` and records the voice, and line 190 fetches the pack
with a second, unconditional `load_voice` call. -/
def doGeneration (env : Env) (s : ServiceState) (text voice : List Char)
    (speed : ℚ) : RunOut :=
  match voice.head? with
  | none => ⟨s, [], Except.error "IndexError".data⟩
  | some c =>
      if s.pipelinesLoaded && (c == 'a' || c == 'b') then
        if s.voicesLoaded.contains voice then
          doGenAfterLoad env s text voice speed []
        else if env.loadVoiceOk then
          doGenAfterLoad env { s with voicesLoaded := voice :: s.voicesLoaded }
            text voice speed [Event.loadVoice voice]
        else ⟨s, [Event.loadVoice voice], Except.error env.loadErr⟩
      else ⟨s, [], Except.error "KeyError".data⟩

/-- Sleeps performed by `generate_speech` before the final readiness check:
the wait loop runs only when the service is uninitialized and initialization
is in progress (lines 154-161). -/
def genWaitCount (env : Env) (s : ServiceState) : Nat :=
  if !s.inited && s.initializationInProgress then waitSleeps env.initAfterSleeps else 0

/-- The service state as re-read after the optional wait: if the background
worker finished during the wait, the state is the post-initialization one. -/
def genStateAfterWait (env : Env) (s : ServiceState) : ServiceState :=
  if !s.inited && s.initializationInProgress &&
      pollInited env.initAfterSleeps (waitSleeps env.initAfterSleeps) then
    readyAfterInit s
  else s

/-- `TTSService.generate_speech` (lines 148-178).  The `use_gpu` parameter is
accepted but never read (per the function's own docstring).  If the service is
still uninitialized after the bounded wait, the mock fallback is returned for
the raw request text; otherwise the voice is validated, the text stripped and
truncated, and `_do_generation` is attempted under a `try` whose handler
converts any exception into the mock fallback. -/
def generateSpeech (env : Env) (s : ServiceState) (text voice : List Char)
    (speed : ℚ) (useGpu : Bool) : RunOut :=
  if !(genStateAfterWait env s).inited then
    ⟨genStateAfterWait env s, List.replicate (genWaitCount env s) Event.sleep,
     Except.ok (generateMockAudio env text, mockNotReadyTrace text)⟩
  else
    match doGeneration env (genStateAfterWait env s) (normalizeText text)
        (validatedVoice voice) speed with
    | ⟨s2, evs, Except.ok v⟩ =>
        ⟨s2, List.replicate (genWaitCount env s) Event.sleep ++ evs, Except.ok v⟩
    | ⟨s2, evs, Except.error e⟩ =>
        ⟨s2, List.replicate (genWaitCount env s) Event.sleep ++ evs,
         Except.ok (generateMockAudio env (normalizeText text), genFailedTrace e)⟩

/-- Oracle for one run of the background initialization worker. -/
structure InitEnv where
  torchOk : Bool
  cudaAvail : Bool
  kokoroOk : Bool
  kokoroErr : List Char
  deriving DecidableEq

/-- The `init_worker` body (tts_service.py lines 60-108): sets
`initialization_in_progress`, probes torch/CUDA (falling back to
`cuda_available = False` on import failure), then loads the CPU model and the
two pipelines, setting `initialized` on success and recording
`initialization_error` on failure; the `finally` clears the in-progress flag. -/
def initWorker (env : InitEnv) (s : ServiceState) : ServiceState :=
  let s1 := { s with initializationInProgress := true }
  let s2 :=
    if env.torchOk then { s1 with cudaAvailable := some env.cudaAvail }
    else { s1 with cudaAvailable := some false }
  let s3 :=
    if env.kokoroOk then
      { s2 with modelsLoaded := true, pipelinesLoaded := true, inited := true }
    else { s2 with initializationError := some env.kokoroErr }
  { s3 with initializationInProgress := false }

/-- `TTSService._start_background_init` (lines 58-112): defines `init_worker`
and unconditionally starts it on a new daemon thread, with no guard on the
current state; the caller's state is untouched synchronously.  The second
component is the list of workers launched by the call. -/
def startBackgroundInit (s : ServiceState) :
    ServiceState × List (InitEnv → ServiceState → ServiceState) :=
  (s, [initWorker])

/-- The method names defined on class `TTSService` (tts_service.py). -/
def ttsServiceMethods : List String :=
  ["__init__", "_start_background_init", "get_status", "get_voices",
   "generate_speech", "_do_generation", "_generate_mock_audio"]

/-- Python attribute lookup for the `tts_service.initialize()` call made by
`startup_event` in main.py (line 54): the class defines no such method, so
the call raises `AttributeError` (which `startup_event` catches). -/
def callInitMethod : Except (List Char) Unit :=
  if "initialize" ∈ ttsServiceMethods then Except.ok ()
  else Except.error "AttributeError".data

/-- The caller-side validator's speed bound from models.py line 7:
`speed: float = Field(default=1.0, ge=0.5, le=2.0)`. -/
def ttsRequestSpeedOk (sp : ℚ) : Bool :=
  decide ((1 / 2 : ℚ) ≤ sp) && decide (sp ≤ 2)

/-! ### Event bookkeeping -/

/-- Recognizes a `load_voice` call for voice `v`. -/
def isLoadOf (v : List Char) : Event → Bool
  | Event.loadVoice w => w == v
  | _ => false

/-- Number of `load_voice` calls for voice `v` in an event list. -/
def loadCount (v : List Char) (es : List Event) : Nat := es.countP (isLoadOf v)

/-- Recognizes a GPU inference call. -/
def isGpuCall : Event → Bool
  | Event.inferGpu _ _ => true
  | _ => false

/-- Recognizes a CPU inference call. -/
def isCpuCall : Event → Bool
  | Event.inferCpu _ _ => true
  | _ => false

/-- Recognizes any inference call. -/
def isInferCall : Event → Bool
  | Event.inferCpu _ _ => true
  | Event.inferGpu _ _ => true
  | _ => false

/-- Recognizes any call into the engine capability (everything but sleeps and
artifact writes). -/
def isEngineCall : Event → Bool
  | Event.sleep => false
  | Event.writeArtifact _ => false
  | _ => true

/-- The inference events of a run. -/
def inferEvents (es : List Event) : List Event := es.filter isInferCall

/-- The GPU inference events of a run. -/
def gpuEvents (es : List Event) : List Event := es.filter isGpuCall

/-- The engine-capability events of a run. -/
def engineEvents (es : List Event) : List Event := es.filter isEngineCall

/-- The speeds passed to inference calls, in order. -/
def usedSpeeds (es : List Event) : List ℚ :=
  es.filterMap fun e =>
    match e with
    | Event.inferCpu _ sp => some sp
    | Event.inferGpu _ sp => some sp
    | _ => none

/-- The texts passed to the segmentation call, in order. -/
def usedTexts (es : List Event) : List (List Char) :=
  es.filterMap fun e =>
    match e with
    | Event.pipelineCall t _ _ => some t
    | _ => none

/-! ### Concrete states and environments used by witnesses and counterexamples -/

/-- A fully initialized service with no voice yet loaded. -/
def readyState : ServiceState :=
  { inited := true, initializationInProgress := false, initializationError := none,
    voicesLoaded := [], modelsLoaded := true, pipelinesLoaded := true,
    cudaAvailable := some false }

/-- A fully initialized service on a machine whose CUDA probe succeeded. -/
def readyGpuState : ServiceState := { readyState with cudaAvailable := some true }

/-- The service while background initialization is still running. -/
def stInitializing : ServiceState :=
  { inited := false, initializationInProgress := true, initializationError := none,
    voicesLoaded := [], modelsLoaded := false, pipelinesLoaded := false,
    cudaAvailable := none }

/-- The service after background initialization failed. -/
def stFailed : ServiceState :=
  { stInitializing with
      initializationInProgress := false,
      initializationError := some "No module named kokoro".data }

/-- An environment in which every external call succeeds and the segmentation
yields a single 5-token chunk. -/
def envOk : Env :=
  { initAfterSleeps := none, loadVoiceOk := true, loadErr := "load failed".data,
    pipelineOk := true, pipelineErr := "pipeline failed".data, segs := [5],
    packLen := 10, modelOk := true, modelErr := "inference failed".data,
    writeOk := true, writeErr := "write failed".data, tmpName := "/tmp/tts1.wav".data,
    mockWriteOk := true, mockTmpName := "/tmp/mock1.wav".data }

/-- `envOk`, except the mock generator's artifact write fails. -/
def envNoMockWrite : Env := { envOk with mockWriteOk := false }

/-- `envOk`, except the model inference call raises. -/
def envBadModel : Env := { envOk with modelOk := false }

/-! ### Helper lemmas -/

/-- `generate_speech` always returns normally: every branch of its body ends in
an `Except.ok`. -/
lemma generateSpeech_result_ok (env : Env) (s : ServiceState) (text voice : List Char)
    (speed : ℚ) (g : Bool) :
    ∃ p t, (generateSpeech env s text voice speed g).result = Except.ok (p, t) := by
  unfold generateSpeech
  split
  · exact ⟨_, _, rfl⟩
  · split
    · exact ⟨_, _, rfl⟩
    · exact ⟨_, _, rfl⟩

/-- The exception handler of `generate_speech`: an exception from
`_do_generation` is converted to the mock fallback. -/
lemma generateSpeech_catch (env : Env) (s : ServiceState) (text voice : List Char)
    (speed : ℚ) (g : Bool) (e : List Char)
    (hinit : (genStateAfterWait env s).inited = true)
    (herr : (doGeneration env (genStateAfterWait env s) (normalizeText text)
        (validatedVoice voice) speed).result = Except.error e) :
    (generateSpeech env s text voice speed g).result =
      Except.ok (generateMockAudio env (normalizeText text), genFailedTrace e) := by
  unfold generateSpeech
  rw [hinit]
  simp only [Bool.not_true, Bool.false_eq_true, if_false]
  split
  · next s2 evs v heq => rw [heq] at herr; exact absurd herr (by simp)
  · next s2 evs e' heq => rw [heq] at herr; simp at herr; rw [herr]

/-! ### C1 -/

/-- C1: for every string text, voice id, speed and use_gpu flag (and every
behaviour of the external collaborators and every service state),
`generate_speech` returns an (artifactPath, tokenTrace) pair and never raises:
any exception arising inside `_do_generation` is caught by the top-level
handler and converted into the mock fallback result. -/
theorem C1_generate_never_raises (env : Env) (s : ServiceState)
    (text voice : List Char) (speed : ℚ) (g : Bool) :
    (∃ p t, (generateSpeech env s text voice speed g).result = Except.ok (p, t)) ∧
    (∀ e : List Char, (genStateAfterWait env s).inited = true →
      (doGeneration env (genStateAfterWait env s) (normalizeText text)
          (validatedVoice voice) speed).result = Except.error e →
      (generateSpeech env s text voice speed g).result =
        Except.ok (generateMockAudio env (normalizeText text), genFailedTrace e)) :=
  ⟨generateSpeech_result_ok env s text voice speed g,
   fun e hinit herr => generateSpeech_catch env s text voice speed g e hinit herr⟩

/-- Witness for C1 at a concrete input: a ready service whose model inference
raises; the inner implications of the theorem are discharged concretely — the
exception really occurs, is converted into the mock fallback, and the call
still returns an ok pair. -/
theorem C1_generate_never_raises_witness :
    (genStateAfterWait envBadModel readyState).inited = true ∧
    (doGeneration envBadModel (genStateAfterWait envBadModel readyState)
        (normalizeText "hi".data) (validatedVoice "af_heart".data) 1).result =
      Except.error "inference failed".data ∧
    (∃ p t, (generateSpeech envBadModel readyState "hi".data "af_heart".data 1
        true).result = Except.ok (p, t)) ∧
    (generateSpeech envBadModel readyState "hi".data "af_heart".data 1
        true).result =
      Except.ok (generateMockAudio envBadModel (normalizeText "hi".data),
        genFailedTrace "inference failed".data) :=
  ⟨by decide, by rfl,
   (C1_generate_never_raises envBadModel readyState "hi".data "af_heart".data 1 true).1,
   (C1_generate_never_raises envBadModel readyState "hi".data "af_heart".data 1
      true).2 "inference failed".data (by decide) (by rfl)⟩

/-! ### C5 -/

/-- C5: two-run noninterference of the `use_gpu` flag: the whole outcome of
`generate_speech` (final state, event trace, audio path and token trace) with
`use_gpu = true` is identical to the outcome with `use_gpu = false`, for every
text, voice, speed, service state and environment — the flag is accepted but
never read. -/
theorem C5_use_gpu_noninterference (env : Env) (s : ServiceState)
    (text voice : List Char) (speed : ℚ) :
    generateSpeech env s text voice speed true =
      generateSpeech env s text voice speed false := rfl

/-! ### C10 -/

/-- C10 counterexample: from a state that is already fully initialized
(`Ready`), `_start_background_init` is not a no-op that launches nothing: it
unconditionally starts a new background acquisition worker. -/
theorem C10_counterexample :
    readyState.inited = true ∧ (startBackgroundInit readyState).2 ≠ [] :=
  ⟨rfl, by simp [startBackgroundInit]⟩

/-- C10 amended: `_start_background_init` has no idempotence guard: invoked
from any state whatsoever it leaves the caller-visible state unchanged and
launches exactly one new background worker (the `init_worker` of lines
60-108); separately, the startup hook's `tts_service.initialize()` call in
main.py raises `AttributeError`, because the class defines no such method, so
re-invocation through the startup hook launches nothing. -/
theorem C10_start_init_unguarded (s : ServiceState) :
    (startBackgroundInit s).1 = s ∧
    (startBackgroundInit s).2 = [initWorker] ∧
    callInitMethod = Except.error "AttributeError".data :=
  ⟨rfl, rfl, rfl⟩


lemma usedTexts_doGenAfterLoad (env : Env) (s : ServiceState) (text voice : List Char)
    (speed : ℚ) (evs : List Event) :
    usedTexts (doGenAfterLoad env s text voice speed evs).events = usedTexts evs ∨
    usedTexts (doGenAfterLoad env s text voice speed evs).events =
      usedTexts evs ++ [text] := by
  unfold doGenAfterLoad
  repeat' split
  all_goals simp [usedTexts, List.filterMap_append]

lemma doGenAfterLoad_state (env : Env) (s : ServiceState) (text voice : List Char)
    (speed : ℚ) (evs : List Event) :
    (doGenAfterLoad env s text voice speed evs).state = s := by
  unfold doGenAfterLoad
  repeat' split
  all_goals rfl

lemma loadCount_doGenAfterLoad (env : Env) (s : ServiceState) (text voice : List Char)
    (speed : ℚ) (evs : List Event) :
    loadCount voice (doGenAfterLoad env s text voice speed evs).events =
      loadCount voice evs + 1 := by
  unfold doGenAfterLoad
  repeat' split
  all_goals simp [loadCount, List.countP_append, List.countP_cons, isLoadOf]

lemma gpuEvents_doGenAfterLoad (env : Env) (s : ServiceState) (text voice : List Char)
    (speed : ℚ) (evs : List Event) :
    gpuEvents (doGenAfterLoad env s text voice speed evs).events = gpuEvents evs := by
  unfold doGenAfterLoad
  repeat' split
  all_goals simp [gpuEvents, List.filter_append, isGpuCall]

lemma usedSpeeds_doGenAfterLoad (env : Env) (s : ServiceState) (text voice : List Char)
    (speed : ℚ) (evs : List Event) :
    usedSpeeds (doGenAfterLoad env s text voice speed evs).events = usedSpeeds evs ∨
    usedSpeeds (doGenAfterLoad env s text voice speed evs).events =
      usedSpeeds evs ++ [speed] := by
  unfold doGenAfterLoad
  repeat' split
  all_goals simp [usedSpeeds, List.filterMap_append]

lemma filterMap_replicate_sleep {α : Type} (f : Event → Option α)
    (h : f Event.sleep = none) (n : Nat) :
    (List.replicate n Event.sleep).filterMap f = [] := by
  induction n with
  | zero => rfl
  | succ m ih => simp [List.replicate_succ, List.filterMap_cons, h, ih]

lemma filter_replicate_sleep (p : Event → Bool) (h : p Event.sleep = false) (n : Nat) :
    (List.replicate n Event.sleep).filter p = [] := by
  induction n with
  | zero => rfl
  | succ m ih => simp [List.replicate_succ, List.filter_cons, h, ih]

lemma usedTexts_doGeneration (env : Env) (s : ServiceState) (text voice : List Char)
    (speed : ℚ) :
    usedTexts (doGeneration env s text voice speed).events = [] ∨
    usedTexts (doGeneration env s text voice speed).events = [text] := by
  unfold doGeneration
  repeat' split
  · simp [usedTexts]
  · simpa [usedTexts] using usedTexts_doGenAfterLoad env s text voice speed []
  · simpa [usedTexts] using usedTexts_doGenAfterLoad env
      { s with voicesLoaded := voice :: s.voicesLoaded } text voice speed
      [Event.loadVoice voice]
  · simp [usedTexts]
  · simp [usedTexts]

lemma gpuEvents_doGeneration (env : Env) (s : ServiceState) (text voice : List Char)
    (speed : ℚ) :
    gpuEvents (doGeneration env s text voice speed).events = [] := by
  unfold doGeneration
  repeat' split
  · simp [gpuEvents]
  · simpa [gpuEvents] using gpuEvents_doGenAfterLoad env s text voice speed []
  · simpa [gpuEvents, isGpuCall] using gpuEvents_doGenAfterLoad env
      { s with voicesLoaded := voice :: s.voicesLoaded } text voice speed
      [Event.loadVoice voice]
  · simp [gpuEvents, isGpuCall]
  · simp [gpuEvents]

lemma usedSpeeds_doGeneration (env : Env) (s : ServiceState) (text voice : List Char)
    (speed : ℚ) :
    usedSpeeds (doGeneration env s text voice speed).events = [] ∨
    usedSpeeds (doGeneration env s text voice speed).events = [speed] := by
  unfold doGeneration
  repeat' split
  · simp [usedSpeeds]
  · simpa [usedSpeeds] using usedSpeeds_doGenAfterLoad env s text voice speed []
  · simpa [usedSpeeds] using usedSpeeds_doGenAfterLoad env
      { s with voicesLoaded := voice :: s.voicesLoaded } text voice speed
      [Event.loadVoice voice]
  · simp [usedSpeeds]
  · simp [usedSpeeds]

lemma usedTexts_append (a b : List Event) :
    usedTexts (a ++ b) = usedTexts a ++ usedTexts b := List.filterMap_append a b _

lemma usedSpeeds_append (a b : List Event) :
    usedSpeeds (a ++ b) = usedSpeeds a ++ usedSpeeds b := List.filterMap_append a b _

lemma gpuEvents_append (a b : List Event) :
    gpuEvents (a ++ b) = gpuEvents a ++ gpuEvents b := List.filter_append a b

lemma engineEvents_append (a b : List Event) :
    engineEvents (a ++ b) = engineEvents a ++ engineEvents b := List.filter_append a b

lemma usedTexts_replicate_sleep (n : Nat) :
    usedTexts (List.replicate n Event.sleep) = [] :=
  filterMap_replicate_sleep _ rfl n

lemma usedSpeeds_replicate_sleep (n : Nat) :
    usedSpeeds (List.replicate n Event.sleep) = [] :=
  filterMap_replicate_sleep _ rfl n

lemma gpuEvents_replicate_sleep (n : Nat) :
    gpuEvents (List.replicate n Event.sleep) = [] :=
  filter_replicate_sleep _ rfl n

lemma engineEvents_replicate_sleep (n : Nat) :
    engineEvents (List.replicate n Event.sleep) = [] :=
  filter_replicate_sleep _ rfl n

lemma usedTexts_generateSpeech (env : Env) (s : ServiceState) (text voice : List Char)
    (speed : ℚ) (g : Bool) :
    usedTexts (generateSpeech env s text voice speed g).events = [] ∨
    usedTexts (generateSpeech env s text voice speed g).events =
      [normalizeText text] := by
  unfold generateSpeech
  split
  · left
    exact usedTexts_replicate_sleep _
  · have h := usedTexts_doGeneration env (genStateAfterWait env s)
      (normalizeText text) (validatedVoice voice) speed
    split
    · next s2 evs v heq =>
        rw [heq] at h
        simpa [usedTexts_append, usedTexts_replicate_sleep] using h
    · next s2 evs e heq =>
        rw [heq] at h
        simpa [usedTexts_append, usedTexts_replicate_sleep] using h

lemma usedSpeeds_generateSpeech (env : Env) (s : ServiceState) (text voice : List Char)
    (speed : ℚ) (g : Bool) :
    usedSpeeds (generateSpeech env s text voice speed g).events = [] ∨
    usedSpeeds (generateSpeech env s text voice speed g).events = [speed] := by
  unfold generateSpeech
  split
  · left
    exact usedSpeeds_replicate_sleep _
  · have h := usedSpeeds_doGeneration env (genStateAfterWait env s)
      (normalizeText text) (validatedVoice voice) speed
    split
    · next s2 evs v heq =>
        rw [heq] at h
        simpa [usedSpeeds_append, usedSpeeds_replicate_sleep] using h
    · next s2 evs e heq =>
        rw [heq] at h
        simpa [usedSpeeds_append, usedSpeeds_replicate_sleep] using h

lemma gpuEvents_generateSpeech (env : Env) (s : ServiceState) (text voice : List Char)
    (speed : ℚ) (g : Bool) :
    gpuEvents (generateSpeech env s text voice speed g).events = [] := by
  unfold generateSpeech
  split
  · exact gpuEvents_replicate_sleep _
  · have h := gpuEvents_doGeneration env (genStateAfterWait env s)
      (normalizeText text) (validatedVoice voice) speed
    split
    · next s2 evs v heq =>
        rw [heq] at h
        simp [gpuEvents_append, gpuEvents_replicate_sleep, h]
    · next s2 evs e heq =>
        rw [heq] at h
        simp [gpuEvents_append, gpuEvents_replicate_sleep, h]

/-! ### C4 -/

/-- C4 counterexample: with `use_gpu = true` on a service whose CUDA probe
succeeded, the single chunk's inference is performed directly on the CPU path
(`models[False]`); no GPU attempt precedes it, contradicting the claimed
GPU-first device policy. -/
theorem C4_counterexample :
    readyGpuState.cudaAvailable = some true ∧
    inferEvents (generateSpeech envOk readyGpuState "hi".data "af_heart".data 1
        true).events = [Event.inferCpu 5 1] ∧
    gpuEvents (generateSpeech envOk readyGpuState "hi".data "af_heart".data 1
        true).events = [] := by
  refine ⟨rfl, by decide, by decide⟩

/-- C4 amended: the device policy claimed by the spec does not exist in the
code: `generate_speech` ignores `use_gpu` and every inference call in every
run — whatever the flag, the CUDA probe result, the state and the environment
— goes through the CPU model `models[False]`; no GPU inference event is ever
emitted. -/
theorem C4_cpu_only (env : Env) (s : ServiceState) (text voice : List Char)
    (speed : ℚ) (g : Bool) :
    gpuEvents (generateSpeech env s text voice speed g).events = [] ∧
    (inferEvents (generateSpeech env s text voice speed g).events).all
      isCpuCall = true := by
  constructor
  · exact gpuEvents_generateSpeech env s text voice speed g
  · rw [List.all_eq_true]
    intro e he
    rw [inferEvents, List.mem_filter] at he
    obtain ⟨hmem, hinf⟩ := he
    have hg := gpuEvents_generateSpeech env s text voice speed g
    cases e with
    | inferCpu k sp => rfl
    | inferGpu k sp =>
        exfalso
        have hmg : Event.inferGpu k sp ∈ gpuEvents (generateSpeech env s text
            voice speed g).events := List.mem_filter.mpr ⟨hmem, rfl⟩
        rw [hg] at hmg
        exact absurd hmg (List.not_mem_nil _)
    | sleep => simp [isInferCall] at hinf
    | loadVoice v => simp [isInferCall] at hinf
    | pipelineCall t v sp => simp [isInferCall] at hinf
    | writeArtifact p => simp [isInferCall] at hinf

/-! ### C6 -/

/-- C6 counterexample: a run at speed 5 (outside the valid range [0.5, 2.0])
reaches synthesis with speed 5 unchanged: `generate_speech` performs no
clamping, so the speed actually used is not in the valid range. -/
theorem C6_counterexample :
    usedSpeeds (generateSpeech envOk readyState "hi".data "af_heart".data 5
        true).events = [5] ∧
    ¬ ((1 / 2 : ℚ) ≤ 5 ∧ (5 : ℚ) ≤ 2) := by
  refine ⟨by decide, by norm_num⟩

/-- C6 amended: `generate_speech` performs no speed normalization at all: in
every run the speed passed to the inference call (when one happens) is exactly
the caller-supplied speed.  Range enforcement exists only in the caller-side
validator `TTSRequest` (models.py lines 4-8), embedded as
`ttsRequestSpeedOk`. -/
theorem C6_speed_passed_unclamped (env : Env) (s : ServiceState)
    (text voice : List Char) (speed : ℚ) (g : Bool) :
    (usedSpeeds (generateSpeech env s text voice speed g).events = [] ∨
     usedSpeeds (generateSpeech env s text voice speed g).events = [speed]) ∧
    (∀ sp : ℚ, ttsRequestSpeedOk sp = true ↔ (1 / 2 ≤ sp ∧ sp ≤ 2)) := by
  refine ⟨usedSpeeds_generateSpeech env s text voice speed g, ?_⟩
  intro sp
  simp [ttsRequestSpeedOk]

/-! ### C7 -/

/-- A text of 5002 characters: a leading space followed by 5001 letters. -/
def ceText : List Char := ' ' :: List.replicate 5001 'a'

lemma dropWhile_replicate_a (n : Nat) :
    (List.replicate n 'a').dropWhile isSpace = List.replicate n 'a' := by
  cases n with
  | zero => rfl
  | succ m =>
      rw [List.replicate_succ, List.dropWhile_cons]
      simp [isSpace]

lemma pyStrip_ceText : pyStrip ceText = List.replicate 5001 'a' := by
  unfold pyStrip ceText
  rw [List.dropWhile_cons]
  have hs : isSpace ' ' = true := by decide
  rw [hs]
  simp only [if_true, dropWhile_replicate_a, List.reverse_replicate]

theorem C7_counterexample :
    5000 < ceText.length ∧ normalizeText ceText ≠ ceText.take 5000 := by
  constructor
  · have h : ceText.length = 5002 := by
      rw [ceText, List.length_cons, List.length_replicate]
    rw [h]
    norm_num
  · rw [normalizeText, pyStrip_ceText, List.take_replicate]
    have h1 : min 5000 5001 = 5000 := by norm_num
    rw [h1]
    have h2 : (5000 : Nat) = 4999 + 1 := by norm_num
    intro h
    rw [ceText, h2, List.take_succ_cons, List.replicate_succ] at h
    have := List.head_eq_of_cons_eq h
    exact absurd this (by decide)

/-- C7 amended: the text actually used for generation is
`text.strip()[:5000]`: in every run that reaches the segmentation call, the
text handed to the pipeline is exactly `normalizeText text`, which has length
at most 5000 and is a prefix of the *stripped* input (for inputs with leading
whitespace it is not a prefix of the raw input — see the counterexample). -/
theorem C7_text_truncation (env : Env) (s : ServiceState) (text voice : List Char)
    (speed : ℚ) (g : Bool) :
    (usedTexts (generateSpeech env s text voice speed g).events = [] ∨
     usedTexts (generateSpeech env s text voice speed g).events =
       [normalizeText text]) ∧
    (normalizeText text).length ≤ 5000 ∧
    normalizeText text <+: pyStrip text := by
  refine ⟨usedTexts_generateSpeech env s text voice speed g, ?_, ?_⟩
  · rw [normalizeText, List.length_take]
    exact min_le_left _ _
  · exact ⟨(pyStrip text).drop 5000, List.take_append_drop 5000 (pyStrip text)⟩

/-! ### C2 -/

/-- C2: when the service is uninitialized with initialization in progress and
no transition to ready occurs, `generate_speech` performs exactly 10 one-second
sleeps, makes no engine call, and returns the mock fallback keyed on the raw
request text; when initialization has already failed (not in progress, error
recorded), it returns the same fallback immediately, with no sleep and no
engine call. -/
theorem C2_bounded_wait (env : Env) (s : ServiceState) (text voice : List Char)
    (speed : ℚ) (g : Bool) (h0 : s.inited = false) :
    (s.initializationInProgress = true → env.initAfterSleeps = none →
      (generateSpeech env s text voice speed g).events =
        List.replicate 10 Event.sleep ∧
      engineEvents (generateSpeech env s text voice speed g).events = [] ∧
      (generateSpeech env s text voice speed g).result =
        Except.ok (generateMockAudio env text, mockNotReadyTrace text)) ∧
    (s.initializationInProgress = false → s.initializationError ≠ none →
      (generateSpeech env s text voice speed g).events = [] ∧
      (generateSpeech env s text voice speed g).result =
        Except.ok (generateMockAudio env text, mockNotReadyTrace text)) := by
  constructor
  · intro hp hn
    have hw : genWaitCount env s = 10 := by
      unfold genWaitCount
      rw [h0, hp, hn]
      rfl
    have hst : genStateAfterWait env s = s := by
      unfold genStateAfterWait
      rw [h0, hp, hn]
      rfl
    unfold generateSpeech
    rw [hst, hw, h0]
    exact ⟨rfl, engineEvents_replicate_sleep 10, rfl⟩
  · intro hp _
    have hw : genWaitCount env s = 0 := by
      unfold genWaitCount
      rw [h0, hp]
      rfl
    have hst : genStateAfterWait env s = s := by
      unfold genStateAfterWait
      rw [h0, hp]
      rfl
    unfold generateSpeech
    rw [hst, hw, h0]
    exact ⟨rfl, rfl⟩

/-- Witness for C2: at the concrete initializing and failed states with a
non-finishing worker, the discharged conclusions of `C2_bounded_wait`. -/
theorem C2_bounded_wait_witness :
    (stInitializing.inited = false ∧ stFailed.inited = false) ∧
    ((generateSpeech envOk stInitializing "hello".data "af_heart".data 1
        true).events = List.replicate 10 Event.sleep ∧
      engineEvents (generateSpeech envOk stInitializing "hello".data
        "af_heart".data 1 true).events = [] ∧
      (generateSpeech envOk stInitializing "hello".data "af_heart".data 1
        true).result =
        Except.ok (generateMockAudio envOk "hello".data,
          mockNotReadyTrace "hello".data)) ∧
    ((generateSpeech envOk stFailed "hello".data "af_heart".data 1
        true).events = [] ∧
      (generateSpeech envOk stFailed "hello".data "af_heart".data 1
        true).result =
        Except.ok (generateMockAudio envOk "hello".data,
          mockNotReadyTrace "hello".data)) :=
  ⟨⟨rfl, rfl⟩,
   (C2_bounded_wait envOk stInitializing "hello".data "af_heart".data 1 true
      rfl).1 rfl rfl,
   (C2_bounded_wait envOk stFailed "hello".data "af_heart".data 1 true
      rfl).2 rfl (by simp [stFailed])⟩

/-! ### C3 -/

/-- Every catalog voice id starts with the pipeline bucket letter a or b. -/
lemma voiceIds_head (v : List Char) (hv : v ∈ voiceIds) :
    v.head? = some 'a' ∨ v.head? = some 'b' := by
  have hall : voiceIds.all
      (fun w => w.head? == some 'a' || w.head? == some 'b') = true := by decide
  have h := List.all_eq_true.mp hall v hv
  simpa using h

/-- The two sequential generate runs of the C3 counterexample. -/
def c3run1 : RunOut := generateSpeech envOk readyState "hi".data "af_heart".data 1 true

/-- Second run, threading the state left by the first. -/
def c3run2 : RunOut :=
  generateSpeech envOk c3run1.state "hi".data "af_heart".data 1 true

/-- C3 counterexample: two consecutive successful generate calls for the same
voice perform `pipeline.load_voice("af_heart")` three times in total (the
guarded warm-up call plus the unconditional pack fetch on the first call, and
the pack fetch again on the second) — not at most once. -/
theorem C3_counterexample :
    loadCount "af_heart".data (c3run1.events ++ c3run2.events) = 3 ∧
    ¬ loadCount "af_heart".data (c3run1.events ++ c3run2.events) ≤ 1 := by
  refine ⟨by decide, by decide⟩

/-- Per-call `load_voice` count of `_do_generation`: one call when the voice is
already in `voices_loaded`, two otherwise, and the voice is recorded in the
resulting state either way. -/
lemma loadCount_doGeneration (env : Env) (s : ServiceState) (text voice : List Char)
    (speed : ℚ) (c : Char) (hh : voice.head? = some c)
    (hc : (c == 'a' || c == 'b') = true) (hp : s.pipelinesLoaded = true)
    (hl : env.loadVoiceOk = true) :
    loadCount voice (doGeneration env s text voice speed).events =
      (if s.voicesLoaded.contains voice then 1 else 2) ∧
    (doGeneration env s text voice speed).state.voicesLoaded.contains voice
      = true := by
  unfold doGeneration
  rw [hh]
  simp only [hp, hc, Bool.true_and, if_true]
  by_cases hcont : s.voicesLoaded.contains voice = true
  · simp only [hcont, if_true]
    refine ⟨?_, ?_⟩
    · rw [loadCount_doGenAfterLoad]
      simp [loadCount, hcont]
    · rw [doGenAfterLoad_state]
      exact hcont
  · simp only [Bool.not_eq_true] at hcont
    simp only [hcont, Bool.false_eq_true, if_false, hl, if_true]
    refine ⟨?_, ?_⟩
    · rw [loadCount_doGenAfterLoad]
      simp [loadCount, List.countP_cons, isLoadOf, hcont]
    · rw [doGenAfterLoad_state]
      simp

/-- C3 amended: the voice pack is not memoized: whenever `_do_generation`
reaches the load section (pipelines loaded, catalog voice, `load_voice` not
raising), `pipeline.load_voice(voice)` is called once if the voice is already
in `voices_loaded` and twice otherwise — i.e. on every generation, not at most
once per process lifetime; the `voices_loaded` set only suppresses the extra
warm-up call on later requests, and the voice is recorded in the state. -/
theorem C3_voice_load_not_memoized (env : Env) (s : ServiceState)
    (text voice : List Char) (speed : ℚ) (hp : s.pipelinesLoaded = true)
    (hv : voice ∈ voiceIds) (hl : env.loadVoiceOk = true) :
    loadCount voice (doGeneration env s text voice speed).events =
      (if s.voicesLoaded.contains voice then 1 else 2) ∧
    (doGeneration env s text voice speed).state.voicesLoaded.contains voice
      = true := by
  rcases voiceIds_head voice hv with h | h
  · exact loadCount_doGeneration env s text voice speed 'a' h rfl hp hl
  · exact loadCount_doGeneration env s text voice speed 'b' h rfl hp hl

/-- Witness for C3 at a concrete input: on a freshly ready service the first
`_do_generation` for af_heart performs two `load_voice` calls and records the
voice. -/
theorem C3_voice_load_not_memoized_witness :
    (readyState.pipelinesLoaded = true ∧ "af_heart".data ∈ voiceIds ∧
      envOk.loadVoiceOk = true) ∧
    loadCount "af_heart".data
      (doGeneration envOk readyState "hi".data "af_heart".data 1).events =
      (if readyState.voicesLoaded.contains "af_heart".data then 1 else 2) ∧
    (doGeneration envOk readyState "hi".data "af_heart".data
      1).state.voicesLoaded.contains "af_heart".data = true :=
  ⟨⟨rfl, by decide, rfl⟩,
   C3_voice_load_not_memoized envOk readyState "hi".data "af_heart".data 1
     rfl (by decide) rfl⟩

/-! ### C9 -/

/-- C9 counterexample: when even the synthetic generator cannot write its
output (`mockWriteOk = false`, service in the failed state), the failure does
NOT surface to the caller: `generate_speech` still returns normally, with the
fixed dummy path that `_generate_mock_audio`'s own handler substitutes. -/
theorem C9_counterexample :
    envNoMockWrite.mockWriteOk = false ∧
    (generateSpeech envNoMockWrite stFailed "hi".data "af_heart".data 1
        true).result =
      Except.ok ("/tmp/mock_audio.wav".data, mockNotReadyTrace "hi".data) :=
  ⟨rfl, by rfl⟩

/-- C9 amended: an artifact-write failure inside the synthetic fallback
generator is absorbed, not propagated: `_generate_mock_audio` catches it and
returns the fixed dummy path `/tmp/mock_audio.wav`, and `generate_speech`
still returns an ok pair — no error whatsoever propagates out of generate. -/
theorem C9_mock_write_failure_absorbed (env : Env) (s : ServiceState)
    (text voice : List Char) (speed : ℚ) (g : Bool)
    (h : env.mockWriteOk = false) :
    generateMockAudio env text = "/tmp/mock_audio.wav".data ∧
    ∃ p t, (generateSpeech env s text voice speed g).result =
      Except.ok (p, t) := by
  refine ⟨?_, generateSpeech_result_ok env s text voice speed g⟩
  simp [generateMockAudio, h]

/-- Witness for C9 at a concrete input. -/
theorem C9_mock_write_failure_absorbed_witness :
    envNoMockWrite.mockWriteOk = false ∧
    generateMockAudio envNoMockWrite "hi".data = "/tmp/mock_audio.wav".data ∧
    ∃ p t, (generateSpeech envNoMockWrite stFailed "hi".data "af_heart".data 1
      true).result = Except.ok (p, t) :=
  ⟨rfl,
   (C9_mock_write_failure_absorbed envNoMockWrite stFailed "hi".data
      "af_heart".data 1 true rfl).1,
   (C9_mock_write_failure_absorbed envNoMockWrite stFailed "hi".data
      "af_heart".data 1 true rfl).2⟩

/-! ### C8 -/

/-- The single-character text used by the C8 counterexample. -/
def aText : List Char := ['a']

lemma mockDuration_aText : mockDuration aText = 1 / 20 := by
  rw [mockDuration]
  have h : aText.length = 1 := rfl
  rw [h]
  norm_num [min_def]

lemma mockNumSamples_aText : mockNumSamples aText = 1200 := by
  rw [mockNumSamples, mockDuration_aText]
  norm_num
  rfl

lemma mockTime_aText : mockTime aText 1 = 1 / 23980 := by
  rw [mockTime, mockDuration_aText, mockNumSamples_aText]
  push_cast
  norm_num

lemma mockTime_aText_pos : (0 : ℝ) < mockTime aText 1 := by
  rw [mockTime_aText]
  norm_num

lemma mockSample_aText_pos : 0 < mockSample aText 1 := by
  rw [mockSample, mockTime_aText]
  have h1 : 2 * Real.pi * 440 * ((1 : ℝ) / 23980) = Real.pi * (880 / 23980) := by
    ring
  rw [h1]
  have h2 : (0 : ℝ) < Real.pi * (880 / 23980) := by positivity
  have h3 : Real.pi * (880 / 23980) < Real.pi := by
    nth_rewrite 2 [← mul_one Real.pi]
    exact mul_lt_mul_of_pos_left (by norm_num) Real.pi_pos
  exact mul_pos (by norm_num) (Real.sin_pos_of_pos_of_lt_pi h2 h3)

/-- C8 counterexample: the fallback waveform carries no exponential-decay
amplitude envelope: there is no positive decay rate for which the code's
samples coincide with the enveloped tone — refuted already at the
single-character text "a", sample index 1, where the tone is strictly positive
and any envelope factor is strictly below 1. -/
theorem C8_counterexample :
    ¬ ∃ c : ℝ, 0 < c ∧
      ∀ i : ℕ, mockSample aText i = specEnvelopedSample c aText i := by
  rintro ⟨c, hc, h⟩
  have h1 := h 1
  rw [specEnvelopedSample] at h1
  have hs := mockSample_aText_pos
  have ht := mockTime_aText_pos
  have h2 : Real.exp (-(c * mockTime aText 1)) * mockSample aText 1 =
      1 * mockSample aText 1 := by
    rw [one_mul]
    exact h1.symm
  have he : Real.exp (-(c * mockTime aText 1)) = 1 :=
    mul_right_cancel₀ (ne_of_gt hs) h2
  have h0 : -(c * mockTime aText 1) = 0 := by
    rw [Real.exp_eq_one_iff] at he
    exact he
  have hpos : 0 < c * mockTime aText 1 := mul_pos hc ht
  linarith

/-- C8 amended: the fallback waveform is a deterministic function of the
text's length alone: equal-length texts give identical duration, sample count
and samples; the duration is `min(len(text) * 0.05, 10)`, hence clamped to
[0, 10]; and the tone has constant amplitude bound 0.3 — no decay envelope is
applied. -/
theorem C8_fallback_waveform (t1 t2 : List Char) (h : t1.length = t2.length) :
    mockDuration t1 = mockDuration t2 ∧
    mockNumSamples t1 = mockNumSamples t2 ∧
    (∀ i : ℕ, mockSample t1 i = mockSample t2 i) ∧
    0 ≤ mockDuration t1 ∧ mockDuration t1 ≤ 10 ∧
    (∀ i : ℕ, |mockSample t1 i| ≤ 0.3) := by
  have hd : mockDuration t1 = mockDuration t2 := by
    rw [mockDuration, mockDuration, h]
  have hn : mockNumSamples t1 = mockNumSamples t2 := by
    rw [mockNumSamples, mockNumSamples, hd]
  have htm : ∀ i : ℕ, mockTime t1 i = mockTime t2 i := by
    intro i
    rw [mockTime, mockTime, hd, hn]
  refine ⟨hd, hn, fun i => by rw [mockSample, mockSample, htm i], ?_, ?_, ?_⟩
  · rw [mockDuration]
    apply le_min
    · positivity
    · norm_num
  · rw [mockDuration]
    exact min_le_right _ _
  · intro i
    rw [mockSample, abs_mul]
    have h1 : |(0.3 : ℝ)| = 0.3 := by norm_num
    rw [h1]
    calc (0.3 : ℝ) * |Real.sin (2 * Real.pi * 440 * mockTime t1 i)|
        ≤ 0.3 * 1 :=
          mul_le_mul_of_nonneg_left (Real.abs_sin_le_one _) (by norm_num)
      _ = 0.3 := mul_one _

/-- Witness for C8 at concrete equal-length texts "ab" and "cd". -/
theorem C8_fallback_waveform_witness :
    ("ab".data.length = "cd".data.length) ∧
    (mockDuration "ab".data = mockDuration "cd".data ∧
     mockNumSamples "ab".data = mockNumSamples "cd".data ∧
     (∀ i : ℕ, mockSample "ab".data i = mockSample "cd".data i) ∧
     0 ≤ mockDuration "ab".data ∧ mockDuration "ab".data ≤ 10 ∧
     (∀ i : ℕ, |mockSample "ab".data i| ≤ 0.3)) :=
  ⟨by decide, C8_fallback_waveform "ab".data "cd".data (by decide)⟩

end KokoroTTS
